import Mathlib

-- Shallow embedding of csu_radartools/csu_fhc.py (CSU hydrometeor fuzzy-logic
-- classification) and proofs about its scoring primitive, summer classifier and
-- winter blend.  Float arrays are modelled as functions from a flat bin index
-- to ℝ, Python None as Option, and an uncaught Python exception as a
-- distinguished error result.  External collaborators (membership-function
-- provider, Fortran beta routine, trapezoid lookup, melting-layer detector,
-- winter scoring) are not under src/ and are passed in as parameters or
-- modelled from the spec, as noted at each definition.

/-- Radar variable keys, as used by the Python dictionaries keyed by
the strings 'DZ', 'DR', 'KD', 'RH', 'LD', 'T'. -/
inductive Key where
  | DZ
  | DR
  | KD
  | RH
  | LD
  | T
deriving DecidableEq

/-- Source lines 32-34: `hid_beta(x_arr, a, b, m)` returns
`1.0/(1.0 + (((x_arr - m)/a)**2)**b)`.  The inner square is a natural power;
the outer exponent `b` is a Python float power, modelled as the real power. -/
noncomputable def hid_beta (x_arr a b m : ℝ) : ℝ :=
  1/(1 + (((x_arr - m)/a)^2) ^ b)

/-- The formula of claim C1 read as stated: the square of (x-m)/a is added
to 1 and the exponent b is applied to that whole denominator sum. -/
noncomputable def betaMembership_claimC1 (x a b m : ℝ) : ℝ :=
  1/((1 + ((x - m)/a)^2) ^ b)

/-- The amended formula: the exponent b is applied to the squared deviation
only, and 1 is added to the result. -/
noncomputable def betaMembership_amended (x a b m : ℝ) : ℝ :=
  1/(1 + (((x - m)/a)^2) ^ b)

/-- Modelled from the spec: `hid_beta_f` (imported from the external
`calc_kdp_ray_fir` Fortran module, not under src/) is the same scoring
primitive as `hid_beta`, applied element-wise over a flat array of length
`sz`; the length argument does not affect the per-index value. -/
noncomputable def hid_beta_f (sz : ℕ) (x : ℕ → ℝ) (a b m : ℝ) : ℕ → ℝ :=
  fun i => hid_beta (x i) a b m

/-- C1: the scoring primitive does not compute the claimed formula
`1 / (1 + ((x − m)/a)^2)^b` (exponent on the whole denominator sum): at
x = 1, a = 1, b = 2, m = 0 the code returns 1/2 while the claimed formula
gives 1/4. -/
theorem c1_counterexample : hid_beta 1 1 2 0 ≠ betaMembership_claimC1 1 1 2 0 := by
  unfold hid_beta betaMembership_claimC1
  have e1 : ((((1:ℝ) - 0)/1)^2 : ℝ) = 1 := by norm_num
  rw [e1, Real.one_rpow]
  have e3 : ((2:ℝ) : ℝ) ^ (2:ℝ) = 4 := by
    rw [show (2:ℝ) = ((2:ℕ) : ℝ) by norm_num, Real.rpow_natCast]
    norm_num
  norm_num [e3]

/-- C1 (amended): for every input x and parameters (a, b, m) with a ≠ 0,
hid_beta returns exactly 1 / (1 + (((x − m)/a)^2)^b): the exponent b is
applied to the squared deviation and 1 is added to that power, and the same
holds element-wise for the array primitive hid_beta_f. -/
theorem c1_theorem (x a b m : ℝ) (ha : a ≠ 0) :
    hid_beta x a b m = betaMembership_amended x a b m ∧
    ∀ (sz : ℕ) (xf : ℕ → ℝ) (i : ℕ),
      hid_beta_f sz xf a b m i = betaMembership_amended (xf i) a b m :=
  ⟨rfl, fun _ _ _ => rfl⟩

/-- C1 witness: the amended identity evaluated at x = 3, a = 1, b = 2, m = 0. -/
theorem c1_witness :
    (1:ℝ) ≠ 0 ∧ hid_beta 3 1 2 0 = betaMembership_amended 3 1 2 0 :=
  ⟨one_ne_zero, (c1_theorem 3 1 2 0 one_ne_zero).1⟩

/-- C8: the peak property fails for the valid parameters a = 1, b = 0, m = 0
(only a ≠ 0 is required by the claim): hid_beta(m, a, 0, m) = 1/2, not 1,
since Python evaluates 0.0**0.0 to 1.0 exactly as the real power does. -/
theorem c8_counterexample : hid_beta 0 1 0 0 ≠ 1 := by
  unfold hid_beta
  have e1 : ((((0:ℝ) - 0)/1)^2 : ℝ) = 0 := by norm_num
  rw [e1, Real.rpow_zero]
  norm_num

/-- C8 (amended): for all parameters with a ≠ 0 and b > 0 and every real x,
hid_beta(x, a, b, m) lies in the half-open interval (0, 1], and the function
peaks at the center: hid_beta(m, a, b, m) = 1.  Positivity of b is required:
b = 0 gives the constant 1/2 (the counterexample), and for b < 0 the program
itself computes 0.0 ** b at x = m, which raises ZeroDivisionError for scalars
or yields an infinite power (score 0.0) for arrays, so neither the peak nor
the lower bound holds of the program there. -/
theorem c8_theorem (x a b m : ℝ) (ha : a ≠ 0) (hb : 0 < b) :
    (0 < hid_beta x a b m ∧ hid_beta x a b m ≤ 1) ∧ hid_beta m a b m = 1 := by
  have ht : (0:ℝ) ≤ ((x - m)/a)^2 := sq_nonneg _
  have htb : (0:ℝ) ≤ (((x - m)/a)^2) ^ b := Real.rpow_nonneg ht b
  have hd : (0:ℝ) < 1 + (((x - m)/a)^2) ^ b := by linarith
  refine ⟨⟨?_, ?_⟩, ?_⟩
  · exact div_pos one_pos hd
  · rw [hid_beta, div_le_one hd]
    linarith
  · unfold hid_beta
    rw [sub_self, zero_div, zero_pow (two_ne_zero), Real.zero_rpow hb.ne']
    norm_num

/-- C8 witness: the amended bounds and peak evaluated at x = 3, a = 1, b = 2,
m = 0. -/
theorem c8_witness :
    ((1:ℝ) ≠ 0 ∧ (0:ℝ) < 2) ∧
      ((0 < hid_beta 3 1 2 0 ∧ hid_beta 3 1 2 0 ≤ 1) ∧ hid_beta 0 1 2 0 = 1) :=
  ⟨⟨one_ne_zero, two_pos⟩, c8_theorem 3 1 2 0 one_ne_zero two_pos⟩

/-- Python substring test `sub in s`, used by `_get_weight_sum` and
`_get_test_list` on the method string: true when `sub` occurs as a
contiguous substring of `s`. -/
def hasSubAux (p : List Char) : List Char → Bool
  | [] => p.isPrefixOf ([] : List Char)
  | c :: cs => p.isPrefixOf (c :: cs) || hasSubAux p cs

/-- String form of the Python `in` operator on strings. -/
def strIn (sub s : String) : Bool := hasSubAux sub.toList s.toList

/-- np.argmax over a per-bin column of species scores: index of the first
occurrence of the maximum (numpy ties break to the lowest index). -/
noncomputable def npArgmax : List ℝ → ℕ
  | [] => 0
  | [_] => 0
  | x :: y :: rest =>
    if x < (y :: rest).getD (npArgmax (y :: rest)) 0 then npArgmax (y :: rest) + 1
    else 0

/-- np.argmax of a nonempty list is a valid index. -/
theorem npArgmax_lt (l : List ℝ) (h : l ≠ []) : npArgmax l < l.length := by
  induction l with
  | nil => exact absurd rfl h
  | cons x xs ih =>
    cases xs with
    | nil => simp [npArgmax]
    | cons y rest =>
      rw [npArgmax]
      split
      · exact Nat.succ_lt_succ (ih (by simp))
      · simp

/-- Membership beta-function parameter arrays for one radar variable: the
per-species shape triplets (a, b, m), as 1-D arrays indexed by the species
number c.  Produced by the external provider `get_mbf_sets_summer` /
`_convert_mbf_sets` (the beta_functions module is not under src/), so a
full parameter table `Key → MBF` is a parameter of the classifier here. -/
structure MBF where
  a : List ℝ
  b : List ℝ
  m : List ℝ

/-- Source lines 326-344 (`_populate_vars`): the radar_data dict maps each
key to the corresponding input array when present (`varlist`/`keylist`
pairing: DZ↦dz, DR↦zdr, KD↦kdp, RH↦rho, LD↦ldr, T↦T).  Flattening is
implicit in the flat-index array model. -/
def radar_data_of (dz zdr kdp rho ldr T : Option (ℕ → ℝ)) : Key → Option (ℕ → ℝ)
  | Key.DZ => dz
  | Key.DR => zdr
  | Key.KD => kdp
  | Key.RH => rho
  | Key.LD => ldr
  | Key.T => T

/-- Source lines 330-344: fhc_vars[key] is 1 when the variable was passed,
else 0. -/
def fhc_vars_of (dz zdr kdp rho ldr T : Option (ℕ → ℝ)) : Key → ℕ :=
  fun k => if (radar_data_of dz zdr kdp rho ldr T k).isSome then 1 else 0

/-- Source lines 310-316 (`_get_pol_flag`): true when any of DR, KD, LD, RH
was passed. -/
def _get_pol_flag (fhc_vars : Key → ℕ) : Bool :=
  (fhc_vars Key.DR != 0) || (fhc_vars Key.KD != 0) || (fhc_vars Key.LD != 0) ||
    (fhc_vars Key.RH != 0)

/-- Hybrid-method variable subset (source line 356). -/
def hybridVarlist : List Key := [Key.DR, Key.KD, Key.RH, Key.LD]

/-- Linear-method variable subset (source line 360). -/
def linearVarlist : List Key := [Key.DR, Key.KD, Key.RH, Key.LD, Key.T, Key.DZ]

/-- Source lines 350-368 (`_get_weight_sum`): picks the variable subset by
substring-matching the method string ('hybrid' first, then 'linear'),
returns the sum of fhc_vars[key]*weights[key] over it, and signals failure
(Python `return None, None`) only when neither substring matches. -/
def _get_weight_sum (fhc_vars : Key → ℕ) (weights : Key → ℝ) (method : String) :
    Option (ℝ × List Key) :=
  if strIn "hybrid" method then
    some (((hybridVarlist.map (fun k => (fhc_vars k : ℝ) * weights k)).sum),
      hybridVarlist)
  else if strIn "linear" method then
    some (((linearVarlist.map (fun k => (fhc_vars k : ℝ) * weights k)).sum),
      linearVarlist)
  else none

/-- Present-variable lookup: the Python code indexes radar_data[key] only for
keys it has checked are present; the default is never reached from
`csu_fhc_summer`. -/
def rdGet (radar_data : Key → Option (ℕ → ℝ)) (k : Key) : ℕ → ℝ :=
  (radar_data k).getD (fun _ => 0)

/-- Source lines 371-382 (`_calculate_test`): weighted sum, over the present
keys of varlist, of fhc_vars[key]*weights[key]*hid_beta_f(...), divided by
weight_sum; element-wise over the flat bin index. -/
noncomputable def _calculate_test (fhc_vars : Key → ℕ) (weights : Key → ℝ)
    (radar_data : Key → Option (ℕ → ℝ)) (sets : Key → MBF) (varlist : List Key)
    (weight_sum : ℝ) (c : ℕ) (sz : ℕ) : ℕ → ℝ :=
  fun i =>
    (((varlist.filter (fun k => (radar_data k).isSome)).map (fun k =>
      (fhc_vars k : ℝ) * weights k *
        hid_beta_f sz (rdGet radar_data k) ((sets k).a.getD c 0)
          ((sets k).b.getD c 0) ((sets k).m.getD c 0) i)).sum) / weight_sum

/-- Source lines 385-410 (`_calculate_test_trap`): as `_calculate_test`, but
the temperature term is the external trapezoidal membership
`get_hid_traps(c, T)` (csu_t_traps is not under src/), passed here as the
function parameter `ttrap`. -/
noncomputable def _calculate_test_trap (fhc_vars : Key → ℕ) (weights : Key → ℝ)
    (radar_data : Key → Option (ℕ → ℝ)) (sets : Key → MBF) (varlist : List Key)
    (weight_sum : ℝ) (c : ℕ) (sz : ℕ) (ttrap : ℕ → ℝ → ℝ) : ℕ → ℝ :=
  fun i =>
    (((varlist.filter (fun k => (radar_data k).isSome)).map (fun k =>
      if k = Key.T then ttrap c (rdGet radar_data Key.T i)
      else
        (fhc_vars k : ℝ) * weights k *
          hid_beta_f sz (rdGet radar_data k) ((sets k).a.getD c 0)
            ((sets k).b.getD c 0) ((sets k).m.getD c 0) i)).sum) / weight_sum

/-- One iteration of the species loop of `_get_test_list` (source lines
424-470) acting on the function-scoped local variable `test`: `none` models
`test` still unbound.  Hybrid: optionally the polarimetric core, then the
multiplicative temperature and reflectivity folds; linear: the weighted sum
only when pol_flag holds, otherwise `test` is left as it was (the stale
value of the previous iteration, or unbound). -/
noncomputable def testStep (fhc_vars : Key → ℕ) (weights : Key → ℝ)
    (radar_data : Key → Option (ℕ → ℝ)) (sets : Key → MBF) (varlist : List Key)
    (weight_sum : ℝ) (pol_flag trap_flag use_temp : Bool) (method : String)
    (sz : ℕ) (ttrap : ℕ → ℝ → ℝ) (st : Option (ℕ → ℝ)) (c : ℕ) :
    Option (ℕ → ℝ) :=
  if strIn "hybrid" method then
    let t1 : Option (ℕ → ℝ) :=
      if pol_flag then
        some (if trap_flag then
          _calculate_test_trap fhc_vars weights radar_data sets varlist
            weight_sum c sz ttrap
        else
          _calculate_test fhc_vars weights radar_data sets varlist weight_sum
            c sz)
      else st
    let betaT : ℕ → ℝ :=
      hid_beta_f sz (rdGet radar_data Key.T) ((sets Key.T).a.getD c 0)
        ((sets Key.T).b.getD c 0) ((sets Key.T).m.getD c 0)
    let t2 : Option (ℕ → ℝ) :=
      if use_temp then
        if pol_flag then t1.map (fun t => fun i => t i * betaT i)
        else some betaT
      else t1
    let betaZ : ℕ → ℝ :=
      hid_beta_f sz (rdGet radar_data Key.DZ) ((sets Key.DZ).a.getD c 0)
        ((sets Key.DZ).b.getD c 0) ((sets Key.DZ).m.getD c 0)
    if fhc_vars Key.DZ ≠ 0 then
      if pol_flag || use_temp then t2.map (fun t => fun i => t i * betaZ i)
      else some betaZ
    else t2
  else if strIn "linear" method then
    if pol_flag then
      some (if trap_flag then
        _calculate_test_trap fhc_vars weights radar_data sets varlist
          weight_sum c sz ttrap
      else
        _calculate_test fhc_vars weights radar_data sets varlist weight_sum
          c sz)
    else st
  else st

/-- The species loop of `_get_test_list`: threads the local `test` through
the iterations and appends its value after each one; appending while `test`
is still unbound is Python's UnboundLocalError, modelled as `none`. -/
noncomputable def testLoopAux (fhc_vars : Key → ℕ) (weights : Key → ℝ)
    (radar_data : Key → Option (ℕ → ℝ)) (sets : Key → MBF) (varlist : List Key)
    (weight_sum : ℝ) (pol_flag trap_flag use_temp : Bool) (method : String)
    (sz : ℕ) (ttrap : ℕ → ℝ → ℝ) :
    Option (ℕ → ℝ) → List ℕ → Option (List (ℕ → ℝ))
  | _, [] => some []
  | st, c :: rest =>
    match testStep fhc_vars weights radar_data sets varlist weight_sum pol_flag
        trap_flag use_temp method sz ttrap st c with
    | none => none
    | some t =>
      (testLoopAux fhc_vars weights radar_data sets varlist weight_sum pol_flag
        trap_flag use_temp method sz ttrap (some t) rest).map (fun l => t :: l)

/-- Source lines 413-471 (`_get_test_list`): runs the species loop for
c in range(len(sets['DZ']['m'])); `none` models the call raising
UnboundLocalError (the in-function `return None` branches are commented out
in the source, so a list is returned whenever the loop completes). -/
noncomputable def _get_test_list (fhc_vars : Key → ℕ) (weights : Key → ℝ)
    (radar_data : Key → Option (ℕ → ℝ)) (sets : Key → MBF) (varlist : List Key)
    (weight_sum : ℝ) (pol_flag trap_flag use_temp : Bool) (method : String)
    (sz : ℕ) (ttrap : ℕ → ℝ → ℝ) : Option (List (ℕ → ℝ)) :=
  testLoopAux fhc_vars weights radar_data sets varlist weight_sum pol_flag
    trap_flag use_temp method sz ttrap none
    (List.range ((sets Key.DZ).m.length))

/-- Result of a call to `csu_fhc_summer`: `fail` is Python `return None`,
`err` is an uncaught exception escaping the call (UnboundLocalError from the
species loop, or a reshape size mismatch), `scoreCube` is the
return_scores=True result and `cats` the arg-max category array. -/
inductive PyOut where
  | fail : PyOut
  | err : PyOut
  | scoreCube (mu : List (ℕ → ℝ)) : PyOut
  | cats (hid : ℕ → ℕ) : PyOut

/-- Source lines 171-290 (`csu_fhc_summer`): fails (None) without
reflectivity; forces use_temp off without T; builds radar_data/fhc_vars;
zeroes fhc_vars['T'] when temperature is unused; fails (None) when
`_get_weight_sum` does; runs the species loop; reshapes the score stack to
n_types rows (a size mismatch would raise) and returns either the score
cube or argmax(mu, axis=0) + 1.  The membership table `sets` (external
provider output after `_convert_mbf_sets`) and the trapezoid lookup `ttrap`
are parameters; `sz` is the common flat length of the input arrays. -/
noncomputable def csu_fhc_summer (use_temp : Bool) (weights : Key → ℝ)
    (method : String) (dz zdr ldr kdp rho T : Option (ℕ → ℝ))
    (use_trap : Bool) (n_types : ℕ) (return_scores : Bool) (sz : ℕ)
    (sets : Key → MBF) (ttrap : ℕ → ℝ → ℝ) : PyOut :=
  match dz with
  | none => PyOut.fail
  | some _ =>
    let use_temp2 := use_temp && T.isSome
    let radar_data := radar_data_of dz zdr kdp rho ldr T
    let fhc_vars0 := fhc_vars_of dz zdr kdp rho ldr T
    let pol_flag := _get_pol_flag fhc_vars0
    let trap_flag := use_trap
    let fhc_vars :=
      if use_temp2 then fhc_vars0
      else fun k => if k = Key.T then 0 else fhc_vars0 k
    match _get_weight_sum fhc_vars weights method with
    | none => PyOut.fail
    | some (weight_sum, varlist) =>
      match _get_test_list fhc_vars weights radar_data sets varlist weight_sum
          pol_flag trap_flag use_temp2 method sz ttrap with
      | none => PyOut.err
      | some test_list =>
        if test_list.length = n_types then
          if return_scores then PyOut.scoreCube test_list
          else PyOut.cats (fun i => npArgmax (test_list.map (fun t => t i)) + 1)
        else PyOut.err

/-- Source lines 138-139 of `run_winter`: the wet-snow remap rewrites melt
category 2 to 5.  In the source this is an in-place assignment
(`fh[whgd] = 5`) on the very array returned by the melting-layer detector,
so the blend and the returned 'ML' categorization both see the remapped
values. -/
def meltRemap (fh0 : ℕ → ℤ) : ℕ → ℤ :=
  fun i => if fh0 i = 2 then 5 else fh0 i

/-- The dictionaries returned by `run_winter` when return_scores is set:
scores = {'ML', 'warm', 'cold'} and hca = {'ML', 'warm', 'cold'}. -/
structure WinterAux where
  scoresML : List (ℕ → ℝ)
  scoresWarm : List (ℕ → ℝ)
  scoresCold : List (ℕ → ℝ)
  hcaML : ℕ → ℤ
  hcaWarm : ℕ → ℤ
  hcaCold : ℕ → ℤ

/-- Source lines 103-166 (`run_winter`), from the point where the external
results are in hand.  The melting-layer detector (csu_fhc_melt, not under
src/) supplies the regime mask `meltlev` (0 warm / 1 transition / 2 cold)
and the melt categorization `fh0` (-1 no-data, 0 unclassified, 1 ice-type,
2 wet-snow); the winter scorer (csu_fhc_winter, not under src/) supplies the
warm- and cold-regime score cubes, so all of these are parameters here.
The body computes fhwarm (argmax+1 remapped 1↦6, 2↦7), fhcold (argmax+1),
remaps the melt categorization in place (2↦5), initializes the blend to -1,
assigns the warm result where meltlev == 0 and the cold result where
meltlev == 2 (and where meltlev == 1 for 'grid' scans), then overrides with
5 where the remapped melt categorization is 5 and with -1 where it is -1 or
0, in that order. -/
noncomputable def run_winter (meltlev : ℕ → ℤ) (fh0 : ℕ → ℤ)
    (scores_ML scores_warm scores_cold : List (ℕ → ℝ)) (scan_type : String)
    (return_scores : Bool) : (ℕ → ℤ) × Option WinterAux :=
  let fhwarm : ℕ → ℤ := fun i =>
    let v : ℤ := (npArgmax (scores_warm.map (fun s => s i)) : ℤ) + 1
    let v1 := if v = 1 then 6 else v
    if v1 = 2 then 7 else v1
  let fhcold : ℕ → ℤ := fun i =>
    (npArgmax (scores_cold.map (fun s => s i)) : ℤ) + 1
  let fh := meltRemap fh0
  let winter_hca : ℕ → ℤ := fun i =>
    let w1 := if meltlev i = 0 then fhwarm i else -1
    let w2 := if meltlev i = 2 then fhcold i else w1
    let w3 := if scan_type = "grid" then
        (if meltlev i = 1 then fhcold i else w2)
      else w2
    let w4 := if fh i = 5 then 5 else w3
    let w5 := if fh i = -1 then -1 else w4
    if fh i = 0 then -1 else w5
  (winter_hca,
    if return_scores then
      some ⟨scores_ML, scores_warm, scores_cold, fh, fhwarm, fhcold⟩
    else none)

/-- C3: in run_winter's blend the regime assignment comes first, then the
wet-snow override, then the no-data override, so at every bin where the
remapped melt categorization is 0 or -1 the final winter category is -1,
regardless of the regime mask, the scores, the scan type and the
return_scores flag. -/
theorem c3_theorem (meltlev fh0 : ℕ → ℤ)
    (scores_ML scores_warm scores_cold : List (ℕ → ℝ)) (scan_type : String)
    (return_scores : Bool) (i : ℕ)
    (h : meltRemap fh0 i = 0 ∨ meltRemap fh0 i = -1) :
    (run_winter meltlev fh0 scores_ML scores_warm scores_cold scan_type
      return_scores).1 i = -1 := by
  rcases h with h | h <;>
    simp [run_winter, h]

/-- C3 witness: a bin with melt category 0 (no-data) in the warm regime
(meltlev 0) still comes out as -1. -/
theorem c3_witness :
    (run_winter (fun _ => 0) (fun _ => 0) [] [fun _ => (1:ℝ)]
      [fun _ => (1:ℝ)] "ppi" false).1 0 = -1 :=
  c3_theorem (fun _ => 0) (fun _ => 0) [] [fun _ => (1:ℝ)] [fun _ => (1:ℝ)]
    "ppi" false 0 (Or.inl rfl)

/-- C4: at every bin where the melting-layer category is 2 (wet snow) and
the regime mask is 2 (cold), the final winter category is 5 (Wet Snow),
whatever the cold-regime scores are. -/
theorem c4_theorem (meltlev fh0 : ℕ → ℤ)
    (scores_ML scores_warm scores_cold : List (ℕ → ℝ)) (scan_type : String)
    (return_scores : Bool) (i : ℕ) (hf : fh0 i = 2) (hm : meltlev i = 2) :
    (run_winter meltlev fh0 scores_ML scores_warm scores_cold scan_type
      return_scores).1 i = 5 := by
  simp [run_winter, meltRemap, hf, hm]

/-- C4 witness: a wet-snow bin (melt category 2) above the melting layer
(meltlev 2) yields the final category 5. -/
theorem c4_witness :
    (run_winter (fun _ => 2) (fun _ => 2) [] [fun _ => (1:ℝ)]
      [fun _ => (1:ℝ)] "ppi" false).1 0 = 5 :=
  c4_theorem (fun _ => 2) (fun _ => 2) [] [fun _ => (1:ℝ)] [fun _ => (1:ℝ)]
    "ppi" false 0 rfl rfl

/-- C5: the claim that the wet-snow remap happens on a working copy is false:
run_winter remaps the melt categorization in place, so with return_scores
set the returned 'ML' categorization carries 5 (not 2) at a wet-snow bin. -/
theorem c5_counterexample :
    ((run_winter (fun _ => 1) (fun _ => 2) [] [fun _ => (1:ℝ)]
      [fun _ => (1:ℝ)] "ppi" true).2.map (fun a2 => a2.hcaML 0)) ≠ some 2 := by
  rw [show ((run_winter (fun _ => 1) (fun _ => 2) [] [fun _ => (1:ℝ)]
    [fun _ => (1:ℝ)] "ppi" true).2.map (fun a2 => a2.hcaML 0)) = some 5 from rfl]
  decide

/-- C5 (amended): the wet-snow remap is performed in place on the melt
categorization produced by the melting-layer partitioner, so whenever
return_scores is requested the returned 'ML' categorization contains 5 (not
2) at every wet-snow bin. -/
theorem c5_theorem (meltlev fh0 : ℕ → ℤ)
    (scores_ML scores_warm scores_cold : List (ℕ → ℝ)) (scan_type : String)
    (i : ℕ) (hf : fh0 i = 2) :
    ((run_winter meltlev fh0 scores_ML scores_warm scores_cold scan_type
      true).2.map (fun a2 => a2.hcaML i)) = some 5 := by
  simp [run_winter, meltRemap, hf]

/-- C5 witness: the amended in-place remap observed at a concrete wet-snow
bin. -/
theorem c5_witness :
    ((run_winter (fun _ => 2) (fun _ => 2) [] [fun _ => (1:ℝ)]
      [fun _ => (1:ℝ)] "rhi" true).2.map (fun a2 => a2.hcaML 0)) = some 5 :=
  c5_theorem (fun _ => 2) (fun _ => 2) [] [fun _ => (1:ℝ)] [fun _ => (1:ℝ)]
    "rhi" 0 rfl

/-- Source lines 28-29: the module-level default weight table. -/
noncomputable def DEFAULT_WEIGHTS : Key → ℝ
  | Key.DZ => 1.5
  | Key.DR => 0.8
  | Key.KD => 1.0
  | Key.RH => 0.8
  | Key.LD => 0.5
  | Key.T => 0.4

/-- A one-species membership table standing in for the external provider
output in concrete check cases. -/
noncomputable def sets1 : Key → MBF := fun _ => ⟨[1], [1], [0]⟩

/-- A trivial trapezoid lookup standing in for the external get_hid_traps in
concrete check cases. -/
noncomputable def tt1 : ℕ → ℝ → ℝ := fun _ _ => 1

/-- C7: a summer classification call without reflectivity returns the
explicit failure signal None immediately, for every other configuration:
no exception escapes and no partial result is produced. -/
theorem c7_theorem (use_temp : Bool) (weights : Key → ℝ) (method : String)
    (zdr ldr kdp rho T : Option (ℕ → ℝ)) (use_trap : Bool) (n_types : ℕ)
    (return_scores : Bool) (sz : ℕ) (sets : Key → MBF) (ttrap : ℕ → ℝ → ℝ) :
    csu_fhc_summer use_temp weights method none zdr ldr kdp rho T use_trap
      n_types return_scores sz sets ttrap = PyOut.fail := rfl

/-- C6: the claim fails as stated: the method check is a substring test
('hybrid' in method), so the string "hybridx", which is neither 'linear' nor
'hybrid', is still accepted and the call classifies instead of returning
None. -/
theorem c6_counterexample :
    ("hybridx" ≠ "linear" ∧ "hybridx" ≠ "hybrid") ∧
    csu_fhc_summer true DEFAULT_WEIGHTS "hybridx" (some (fun _ => (35:ℝ)))
      none none none none none false 1 false 1 sets1 tt1 ≠ PyOut.fail := by
  refine ⟨⟨by decide, by decide⟩, ?_⟩
  rw [show csu_fhc_summer true DEFAULT_WEIGHTS "hybridx"
      (some (fun _ => (35:ℝ))) none none none none none false 1 false 1 sets1
      tt1 = PyOut.cats (fun _ => 1) from rfl]
  simp

/-- C6 (amended): for every method string that contains neither 'hybrid' nor
'linear' as a substring, csu_fhc_summer returns the explicit failure signal
(None) — the same signal as for missing reflectivity — and produces no
partial result. -/
theorem c6_theorem (use_temp : Bool) (weights : Key → ℝ) (method : String)
    (dz zdr ldr kdp rho T : Option (ℕ → ℝ)) (use_trap : Bool) (n_types : ℕ)
    (return_scores : Bool) (sz : ℕ) (sets : Key → MBF) (ttrap : ℕ → ℝ → ℝ)
    (h1 : strIn "hybrid" method = false) (h2 : strIn "linear" method = false) :
    csu_fhc_summer use_temp weights method dz zdr ldr kdp rho T use_trap
      n_types return_scores sz sets ttrap = PyOut.fail := by
  cases dz with
  | none => rfl
  | some d => simp [csu_fhc_summer, _get_weight_sum, h1, h2]

/-- C6 witness: an unrecognized method string ("fuzzy") with reflectivity
present returns the failure signal. -/
theorem c6_witness :
    (strIn "hybrid" "fuzzy" = false ∧ strIn "linear" "fuzzy" = false) ∧
    csu_fhc_summer true DEFAULT_WEIGHTS "fuzzy" (some (fun _ => (35:ℝ))) none
      none none none none false 1 false 1 sets1 tt1 = PyOut.fail :=
  ⟨⟨by decide, by decide⟩,
    c6_theorem true DEFAULT_WEIGHTS "fuzzy" (some (fun _ => (35:ℝ))) none none
      none none none false 1 false 1 sets1 tt1 (by decide) (by decide)⟩

/-- The species loop never leaves `test` unassigned when the method contains
'linear' (and not 'hybrid') and a polarimetric variable is present, so it
always returns a list. -/
theorem testLoopAux_linear_some (fhc_vars : Key → ℕ) (weights : Key → ℝ)
    (radar_data : Key → Option (ℕ → ℝ)) (sets : Key → MBF) (varlist : List Key)
    (weight_sum : ℝ) (trap_flag use_temp : Bool) (method : String) (sz : ℕ)
    (ttrap : ℕ → ℝ → ℝ)
    (h1 : strIn "hybrid" method = false) (h2 : strIn "linear" method = true)
    (cs : List ℕ) :
    ∀ st : Option (ℕ → ℝ),
      ∃ tl, testLoopAux fhc_vars weights radar_data sets varlist weight_sum
        true trap_flag use_temp method sz ttrap st cs = some tl := by
  induction cs with
  | nil => exact fun st => ⟨[], rfl⟩
  | cons c rest ih =>
    intro st
    have hstep : testStep fhc_vars weights radar_data sets varlist weight_sum
        true trap_flag use_temp method sz ttrap st c =
        some (if trap_flag then
          _calculate_test_trap fhc_vars weights radar_data sets varlist
            weight_sum c sz ttrap
        else
          _calculate_test fhc_vars weights radar_data sets varlist weight_sum
            c sz) := by
      simp [testStep, h1, h2]
    obtain ⟨tl, htl⟩ := ih (some (if trap_flag then
      _calculate_test_trap fhc_vars weights radar_data sets varlist weight_sum
        c sz ttrap
    else
      _calculate_test fhc_vars weights radar_data sets varlist weight_sum c sz))
    refine ⟨(if trap_flag then
      _calculate_test_trap fhc_vars weights radar_data sets varlist weight_sum
        c sz ttrap
    else
      _calculate_test fhc_vars weights radar_data sets varlist weight_sum c sz)
        :: tl, ?_⟩
    rw [testLoopAux, hstep]
    simp [htl]

/-- C2: the claim fails: with all weights zero (weight_sum = 0), method
'linear', and dz and zdr present, csu_fhc_summer does not return the failure
signal before per-species computation — the code only checks the
unknown-method None, so the call proceeds into the species loop and the
division by the zero weight sum. -/
theorem c2_counterexample :
    (_get_weight_sum (fhc_vars_of (some (fun _ => (35:ℝ)))
        (some (fun _ => (1:ℝ))) none none none none) (fun _ => 0)
        "linear").map Prod.fst = some 0 ∧
    csu_fhc_summer true (fun _ => 0) "linear" (some (fun _ => (35:ℝ)))
      (some (fun _ => (1:ℝ))) none none none none false 1 false 1 sets1 tt1
      ≠ PyOut.fail := by
  constructor
  · simp [_get_weight_sum, linearVarlist,
      show strIn "hybrid" "linear" = false from by decide,
      show strIn "linear" "linear" = true from by decide]
  · rw [show csu_fhc_summer true (fun _ => 0) "linear"
      (some (fun _ => (35:ℝ))) (some (fun _ => (1:ℝ))) none none none none
      false 1 false 1 sets1 tt1 = PyOut.cats (fun _ => 1) from rfl]
    simp

/-- C2 (amended): a zero weight sum is not detected by csu_fhc_summer: the
weight sum over the linear subset is 0 whenever all weights are zero, yet a
linear-method call with reflectivity and differential reflectivity present
and all-zero weights never returns the failure signal None — only an
unrecognized method string does. -/
theorem c2_theorem (use_temp : Bool) (d z : ℕ → ℝ) (T : Option (ℕ → ℝ))
    (use_trap : Bool) (n_types : ℕ) (return_scores : Bool) (sz : ℕ)
    (sets : Key → MBF) (ttrap : ℕ → ℝ → ℝ) :
    (∀ fhc_vars : Key → ℕ,
      (_get_weight_sum fhc_vars (fun _ => 0) "linear").map Prod.fst = some 0) ∧
    csu_fhc_summer use_temp (fun _ => 0) "linear" (some d) (some z) none none
      none T use_trap n_types return_scores sz sets ttrap ≠ PyOut.fail := by
  constructor
  · intro fhc_vars
    simp [_get_weight_sum, linearVarlist,
      show strIn "hybrid" "linear" = false from by decide,
      show strIn "linear" "linear" = true from by decide]
  · intro hfail
    rw [csu_fhc_summer] at hfail
    simp only [_get_weight_sum,
      show strIn "hybrid" "linear" = false from by decide,
      show strIn "linear" "linear" = true from by decide,
      Bool.false_eq_true, if_false, if_true] at hfail
    rw [_get_test_list] at hfail
    have hpol : _get_pol_flag (fhc_vars_of (some d) (some z) none none none T)
        = true := rfl
    rw [hpol] at hfail
    obtain ⟨tl, htl⟩ := testLoopAux_linear_some
      (if (use_temp && T.isSome : Bool) then
        fhc_vars_of (some d) (some z) none none none T
      else fun k => if k = Key.T then 0
        else fhc_vars_of (some d) (some z) none none none T k)
      (fun _ => 0) (radar_data_of (some d) (some z) none none none T) sets
      linearVarlist _ use_trap (use_temp && T.isSome) "linear" sz ttrap
      (by decide) (by decide) (List.range ((sets Key.DZ).m.length)) none
    rw [htl] at hfail
    split at hfail
    · exact PyOut.noConfusion hfail
    · split at hfail
      · split at hfail <;> exact PyOut.noConfusion hfail
      · exact PyOut.noConfusion hfail

/-- C10: a linear-method call with reflectivity but no polarimetric variable
(zdr, kdp, rho, ldr all absent) never assigns the per-species test score, so
csu_fhc_summer ends in the uncaught UnboundLocalError — not in the explicit
failure signal None and not in a category array — whatever the temperature
input, weights, and flags are. -/
theorem c10_theorem (use_temp : Bool) (weights : Key → ℝ) (d : ℕ → ℝ)
    (T : Option (ℕ → ℝ)) (use_trap : Bool) (n_types : ℕ) (return_scores : Bool)
    (sz : ℕ) (sets : Key → MBF) (ttrap : ℕ → ℝ → ℝ)
    (hn : 0 < (sets Key.DZ).m.length) :
    csu_fhc_summer use_temp weights "linear" (some d) none none none none T
      use_trap n_types return_scores sz sets ttrap = PyOut.err := by
  rw [csu_fhc_summer]
  simp only [_get_weight_sum,
    show strIn "hybrid" "linear" = false from by decide,
    show strIn "linear" "linear" = true from by decide,
    Bool.false_eq_true, if_false, if_true]
  rw [_get_test_list]
  have hpol : _get_pol_flag (fhc_vars_of (some d) none none none none T)
      = false := rfl
  rw [hpol]
  rcases Nat.exists_eq_add_of_lt hn with ⟨k, hk⟩
  rw [show 0 + k + 1 = k + 1 from by omega] at hk
  rw [hk, List.range_succ_eq_map, testLoopAux]
  have hstep : ∀ fv ws, testStep fv weights
      (radar_data_of (some d) none none none none T) sets linearVarlist ws
      false use_trap (use_temp && T.isSome) "linear" sz ttrap none 0
      = none := by
    intro fv ws
    simp [testStep,
      show strIn "hybrid" "linear" = false from by decide,
      show strIn "linear" "linear" = true from by decide]
  rw [hstep]

/-- C10 witness: the unbound-local crash observed for a concrete
linear-method, reflectivity-only call. -/
theorem c10_witness :
    0 < (sets1 Key.DZ).m.length ∧
    csu_fhc_summer true DEFAULT_WEIGHTS "linear" (some (fun _ => (35:ℝ))) none
      none none none (some (fun _ => (5:ℝ))) false 1 false 1 sets1 tt1
      = PyOut.err :=
  ⟨by decide,
    c10_theorem true DEFAULT_WEIGHTS (fun _ => (35:ℝ))
      (some (fun _ => (5:ℝ))) false 1 false 1 sets1 tt1 (by decide)⟩

/-- C9: whenever csu_fhc_summer returns a category array, every entry lies
in [1, nTypes]: the species loop produces one score row per species, the
reshape to nTypes rows succeeds only when the cube has exactly nTypes rows,
and each entry is the arg-max row index along the species axis plus 1. -/
theorem c9_theorem (use_temp : Bool) (weights : Key → ℝ) (method : String)
    (dz zdr ldr kdp rho T : Option (ℕ → ℝ)) (use_trap : Bool) (n_types : ℕ)
    (return_scores : Bool) (sz : ℕ) (sets : Key → MBF) (ttrap : ℕ → ℝ → ℝ)
    (hn : 0 < n_types) :
    ∀ hid, csu_fhc_summer use_temp weights method dz zdr ldr kdp rho T
        use_trap n_types return_scores sz sets ttrap = PyOut.cats hid →
      ∀ i, 1 ≤ hid i ∧ hid i ≤ n_types := by
  intro hid heq i
  cases dz with
  | none => exact absurd heq (by simp [csu_fhc_summer])
  | some d =>
    rw [csu_fhc_summer] at heq
    split at heq
    · exact PyOut.noConfusion heq
    · split at heq
      · exact PyOut.noConfusion heq
      · rename_i test_list hsome
        split at heq
        · rename_i hlen
          split at heq
          · exact PyOut.noConfusion heq
          · have hf := PyOut.cats.inj heq
            subst hf
            have hne : test_list.map (fun t => t i) ≠ [] := by
              have : test_list ≠ [] := by
                intro hnil
                rw [hnil] at hlen
                simp at hlen
                omega
              simpa using this
            have hlt := npArgmax_lt (test_list.map (fun t => t i)) hne
            rw [List.length_map] at hlt
            constructor
            · exact Nat.succ_le_succ (Nat.zero_le _)
            · exact Nat.succ_le_of_lt (hlen ▸ hlt)
        · exact PyOut.noConfusion heq

/-- C9 witness: a concrete single-species hybrid call returns the category
array constantly 1, within [1, nTypes] = [1, 1]. -/
theorem c9_witness :
    csu_fhc_summer true DEFAULT_WEIGHTS "hybrid" (some (fun _ => (35:ℝ))) none
      none none none none false 1 false 1 sets1 tt1 = PyOut.cats (fun _ => 1) ∧
    (1 ≤ 1 ∧ 1 ≤ 1) :=
  ⟨rfl,
    c9_theorem true DEFAULT_WEIGHTS "hybrid" (some (fun _ => (35:ℝ))) none none
      none none none false 1 false 1 sets1 tt1 (by decide) (fun _ => 1) rfl 0⟩
